import Mathlib

/-!
Shallow embedding of the clwind terminal string builder (src/mod.ts).

JavaScript strings are modelled as `List Char`; JavaScript numbers that
reach the hex setters are modelled as `Nat` (the non-negative integers
actually used with those entry points), while the values flowing through
the bitwise pipeline of `HexToRGB` are modelled as `Int` with an explicit
32-bit signed truncation (`toInt32`), mirroring the ToInt32 coercion that
JavaScript applies to the operands of `>>` and `&` (NaN coerces to 0).
Exceptions are modelled with `Except`: a `throw` of `new Error(msg)`
becomes `Except.error msg`.
-/

namespace Clwind

/-- JavaScript strings, modelled as lists of characters. -/
abbrev JSString := List Char

/-- Decidable equality for `Except`, used to evaluate the model on
concrete inputs. -/
instance {ε α : Type} [DecidableEq ε] [DecidableEq α] : DecidableEq (Except ε α)
  | .error x, .error y =>
    if h : x = y then .isTrue (by rw [h]) else .isFalse (fun hc => by cases hc; exact h rfl)
  | .error _, .ok _ => .isFalse (fun hc => by cases hc)
  | .ok _, .error _ => .isFalse (fun hc => by cases hc)
  | .ok x, .ok y =>
    if h : x = y then .isTrue (by rw [h]) else .isFalse (fun hc => by cases hc; exact h rfl)

/-- Character class of the validation regex `[0-9a-f]` with the `i` flag. -/
def isHexDigitCI (c : Char) : Bool :=
  ('0' ≤ c && c ≤ '9') || ('a' ≤ c && c ≤ 'f') || ('A' ≤ c && c ≤ 'F')

/-- Numeric value of a digit character under a given radix, as JavaScript
`parseInt` accepts it (`0-9`, then letters case-insensitively), or `none`
when the character is not a digit of that radix. -/
def digitVal (radix : Nat) (c : Char) : Option Nat :=
  let v : Option Nat :=
    if '0' ≤ c && c ≤ '9' then some (c.toNat - '0'.toNat)
    else if 'a' ≤ c && c ≤ 'z' then some (c.toNat - 'a'.toNat + 10)
    else if 'A' ≤ c && c ≤ 'Z' then some (c.toNat - 'A'.toNat + 10)
    else none
  match v with
  | some d => if d < radix then some d else none
  | none => none

/-- ASCII whitespace characters skipped by JavaScript `parseInt`. -/
def isJsSpace (c : Char) : Bool :=
  c = ' ' || c = '\t' || c = '\n' || c = '\r' || c = '\x0b' || c = '\x0c'

/-- Accumulate the value of the longest leading run of digits, as
`parseInt` does after its prefix handling. -/
def parseDigitsAux (radix : Nat) : List Char → Nat → Nat
  | [], acc => acc
  | c :: rest, acc =>
    match digitVal radix c with
    | some d => parseDigitsAux radix rest (acc * radix + d)
    | none => acc

/-- JavaScript `parseInt(s, radix)`: skip leading whitespace, read an
optional sign, strip an optional `0x`/`0X` prefix when the radix is 16,
then parse the longest leading digit run; `none` models `NaN` (no digit
at all). -/
def parseIntJS (radix : Nat) (s : JSString) : Option Int :=
  let s1 := s.dropWhile isJsSpace
  let signAndRest : Int × JSString :=
    match s1 with
    | '-' :: r => (-1, r)
    | '+' :: r => (1, r)
    | _ => (1, s1)
  let s3 : JSString :=
    if radix = 16 then
      match signAndRest.2 with
      | '0' :: 'x' :: r => r
      | '0' :: 'X' :: r => r
      | _ => signAndRest.2
    else signAndRest.2
  match s3 with
  | [] => none
  | c :: _ =>
    if (digitVal radix c).isSome then
      some (signAndRest.1 * (parseDigitsAux radix s3 0 : Nat))
    else none

/-- JavaScript ToInt32 applied to a possibly-NaN number (`none` is NaN,
which ToInt32 sends to 0); integer values are reduced into
`[-2^31, 2^31)`. -/
def toInt32 : Option Int → Int
  | none => 0
  | some v => (v + 2 ^ 31) % 2 ^ 32 - 2 ^ 31

/-- JavaScript `x >> k` on an int32 value: arithmetic (sign-extending)
right shift, i.e. flooring division by `2^k`. -/
def shr32 (x : Int) (k : Nat) : Int := Int.fdiv x (2 ^ k)

/-- JavaScript `x & 0xff` on an int32 value, which is its low byte. -/
def and255 (x : Int) : Int := x % 256

/-- JavaScript `n.toString(16)` for a non-negative integer: lowercase hex
digits, most significant first, `"0"` for zero. -/
def jsNatToHex (n : Nat) : JSString := Nat.toDigits 16 n

/-- JavaScript decimal rendering of a non-negative integer. -/
def jsNatToDec (n : Nat) : JSString := Nat.toDigits 10 n

/-- JavaScript decimal rendering of an integer (template-string `${i}`). -/
def jsIntToDec (i : Int) : JSString :=
  if i < 0 then '-' :: jsNatToDec i.natAbs else jsNatToDec i.toNat

/-- JavaScript `s.padStart(6, "0")`. -/
def padStart6 (s : JSString) : JSString :=
  if 6 ≤ s.length then s else List.replicate (6 - s.length) '0' ++ s

/-- JavaScript `s.replace(/^#/, "")`: remove one leading `#` if present. -/
def stripHash (s : JSString) : JSString :=
  match s with
  | [] => []
  | c :: r => if c = '#' then r else c :: r

/-- The `number | string` argument type of the hex entry points. -/
inductive NumOrStr where
  | num : Nat → NumOrStr
  | str : JSString → NumOrStr
deriving DecidableEq

/-- Source `Hex` (src/mod.ts lines 30-36): strings lose one leading `#`
and are left-padded with `0` to six characters; numbers are rendered in
hex and padded the same way. -/
def Hex : NumOrStr → JSString
  | .str s => padStart6 (stripHash s)
  | .num n => padStart6 (jsNatToHex n)

/-- Source `RGB` (src/mod.ts lines 45-47): the template
rendering the three channels joined by semicolons. -/
def RGB (r g b : Int) : JSString :=
  jsIntToDec r ++ (';' :: jsIntToDec g) ++ (';' :: jsIntToDec b)

/-- The test of the validation regex of `HexToRGB`,
matching exactly the strings that consist of `#` followed by three or six
case-insensitive hex digits. -/
def hexColorRegex (s : JSString) : Bool :=
  match s with
  | [] => false
  | c :: ds => c == '#' && (ds.length == 3 || ds.length == 6) && ds.all isHexDigitCI

/-- Source `HexToRGB` (src/mod.ts lines 54-66): throw "Invalid hex color"
when the regex MATCHES (the source condition is not negated), otherwise
`parseInt(hex, 16)` and split the value into channels with `>> 16`,
`>> 8 & 0xff` and `& 0xff`. -/
def HexToRGB (hex : JSString) : Except JSString JSString :=
  if hexColorRegex hex then Except.error ("Invalid hex color".data)
  else
    let num := parseIntJS 16 hex
    let r := shr32 (toInt32 num) 16
    let g := and255 (shr32 (toInt32 num) 8)
    let b := and255 (toInt32 num)
    Except.ok (RGB r g b)

/-- Source `Color` enum (src/mod.ts lines 5-23). -/
inductive Color where
  | BLACK | RED | GREEN | YELLOW | BLUE | MAGENTA | CYAN | WHITE
  | BRIGHT_BLACK | BRIGHT_RED | BRIGHT_GREEN | BRIGHT_YELLOW
  | BRIGHT_BLUE | BRIGHT_MAGENTA | BRIGHT_CYAN | BRIGHT_WHITE
deriving DecidableEq

/-- The string value carried by each `Color` enum member. -/
def Color.val : Color → JSString
  | .BLACK => "30".data
  | .RED => "31".data
  | .GREEN => "32".data
  | .YELLOW => "33".data
  | .BLUE => "34".data
  | .MAGENTA => "35".data
  | .CYAN => "36".data
  | .WHITE => "37".data
  | .BRIGHT_BLACK => "90".data
  | .BRIGHT_RED => "91".data
  | .BRIGHT_GREEN => "92".data
  | .BRIGHT_YELLOW => "93".data
  | .BRIGHT_BLUE => "94".data
  | .BRIGHT_MAGENTA => "95".data
  | .BRIGHT_CYAN => "96".data
  | .BRIGHT_WHITE => "97".data

/-- Source `Style` enum (src/mod.ts lines 72-81); code 6 is unused. -/
inductive Style where
  | BOLD | DIM | ITALIC | UNDERLINE | BLINK | INVERT | HIDDEN | STRIKE
deriving DecidableEq

/-- The string value carried by each `Style` enum member. -/
def Style.val : Style → JSString
  | .BOLD => "1".data
  | .DIM => "2".data
  | .ITALIC => "3".data
  | .UNDERLINE => "4".data
  | .BLINK => "5".data
  | .INVERT => "7".data
  | .HIDDEN => "8".data
  | .STRIKE => "9".data

/-- Source class `CLW` (src/mod.ts lines 87-95): the builder state.
The empty string plays the role of the unset (falsy) color fields. -/
structure CLW where
  str : JSString
  color : JSString
  bgColor : JSString
  style : List JSString
deriving DecidableEq

/-- The `CLW` constructor: only `str` is set, the other fields take their
field initializers `""`, `""` and `[]`. -/
def CLW.make (s : JSString) : CLW := ⟨s, [], [], []⟩

/-- Source `CLW.toString` (src/mod.ts lines 101-121): collect the
foreground code, the `;`-joined styles and the background code in that
order, return the raw string when nothing is set, otherwise wrap in
`ESC[...m` and `ESC[0m`. -/
def CLW.toString (self : CLW) : JSString :=
  let codes : List JSString :=
    (if self.color.isEmpty then [] else [self.color]) ++
    (if self.style.length > 0 then [List.intercalate ";".data self.style] else []) ++
    (if self.bgColor.isEmpty then [] else [self.bgColor])
  if codes.isEmpty then self.str
  else "\x1b[".data ++ List.intercalate ";".data codes ++ ('m' :: self.str) ++ "\x1b[0m".data

/-- Source `CLW.colorToAnsii` (src/mod.ts lines 130-138): `parseInt` the
enum value, add 10 for backgrounds, and throw "Invalid color code" when
the result is NaN (NaN + 10 is still NaN, so the check is equivalent to
checking the parse itself). -/
def CLW.colorToAnsii (color : Color) (bg : Bool) : Except JSString JSString :=
  match parseIntJS 10 color.val with
  | none => Except.error ("Invalid color code".data)
  | some n => Except.ok (jsIntToDec (n + if bg then 10 else 0))

/-- Source `CLW.text` (src/mod.ts lines 145-148). -/
def CLW.text (self : CLW) (color : Color) : Except JSString CLW :=
  (CLW.colorToAnsii color false).map fun code => { self with color := code }

/-- Source `CLW.text_hex` (src/mod.ts lines 155-158). -/
def CLW.text_hex (self : CLW) (hex : NumOrStr) : Except JSString CLW :=
  (HexToRGB (Hex hex)).map fun rgb => { self with color := "38;2;".data ++ rgb }

/-- Source `CLW.text_rgb` (src/mod.ts lines 167-170). -/
def CLW.text_rgb (self : CLW) (r g b : Int) : CLW :=
  { self with color := "38;2;".data ++ RGB r g b }

/-- Source `CLW.text_256` (src/mod.ts lines 177-180). -/
def CLW.text_256 (self : CLW) (n : Int) : CLW :=
  { self with color := "38;5;".data ++ jsIntToDec n }

/-- Source `CLW.bg` (src/mod.ts lines 187-190). -/
def CLW.bg (self : CLW) (color : Color) : Except JSString CLW :=
  (CLW.colorToAnsii color true).map fun code => { self with bgColor := code }

/-- Source `CLW.bg_hex` (src/mod.ts lines 197-200). -/
def CLW.bg_hex (self : CLW) (hex : NumOrStr) : Except JSString CLW :=
  (HexToRGB (Hex hex)).map fun rgb => { self with bgColor := "48;2;".data ++ rgb }

/-- Source `CLW.bg_rgb` (src/mod.ts lines 209-212). -/
def CLW.bg_rgb (self : CLW) (r g b : Int) : CLW :=
  { self with bgColor := "48;2;".data ++ RGB r g b }

/-- Source `CLW.bg_256` (src/mod.ts lines 219-222). -/
def CLW.bg_256 (self : CLW) (n : Int) : CLW :=
  { self with bgColor := "48;5;".data ++ jsIntToDec n }

/-- Source `CLW.font` (src/mod.ts lines 229-232): push onto the style
list (cumulative, no deduplication). -/
def CLW.font (self : CLW) (s : Style) : CLW :=
  { self with style := self.style ++ [s.val] }

/-- Source `CLW.reset` (src/mod.ts lines 238-243): clear the three style
fields, keep `str`. -/
def CLW.reset (self : CLW) : CLW :=
  { self with color := [], bgColor := [], style := [] }

/-- A foreground setter call of the public interface, with its argument. -/
inductive FgOp where
  | named : Color → FgOp
  | hexv : NumOrStr → FgOp
  | rgbv : Int → Int → Int → FgOp
  | indexed : Int → FgOp
deriving DecidableEq

/-- A background setter call of the public interface, with its argument. -/
inductive BgOp where
  | named : Color → BgOp
  | hexv : NumOrStr → BgOp
  | rgbv : Int → Int → Int → BgOp
  | indexed : Int → BgOp
deriving DecidableEq

/-- Run one foreground setter on a builder. -/
def applyFg (x : CLW) : FgOp → Except JSString CLW
  | .named c => x.text c
  | .hexv h => x.text_hex h
  | .rgbv r g b => Except.ok (x.text_rgb r g b)
  | .indexed n => Except.ok (x.text_256 n)

/-- Run one background setter on a builder. -/
def applyBg (x : CLW) : BgOp → Except JSString CLW
  | .named c => x.bg c
  | .hexv h => x.bg_hex h
  | .rgbv r g b => Except.ok (x.bg_rgb r g b)
  | .indexed n => Except.ok (x.bg_256 n)

/-- Any state-mutating call of the public interface. -/
inductive Op where
  | fg : FgOp → Op
  | bg : BgOp → Op
  | font : Style → Op
  | rst : Op
deriving DecidableEq

/-- Run one mutating call on a builder. -/
def applyOp (x : CLW) : Op → Except JSString CLW
  | .fg f => applyFg x f
  | .bg b => applyBg x b
  | .font s => Except.ok (x.font s)
  | .rst => Except.ok x.reset

/-- Run a chain of mutating calls left to right; a throw aborts the
chain, as an exception aborts the JavaScript call chain. -/
def applyOps (x : CLW) : List Op → Except JSString CLW
  | [] => Except.ok x
  | op :: rest =>
    match applyOp x op with
    | Except.error e => Except.error e
    | Except.ok y => applyOps y rest

/-- The escape-sequence parameter a foreground setter stores, or the
error it throws. -/
def fgParam : FgOp → Except JSString JSString
  | .named c => CLW.colorToAnsii c false
  | .hexv h => (HexToRGB (Hex h)).map fun rgb => "38;2;".data ++ rgb
  | .rgbv r g b => Except.ok ("38;2;".data ++ RGB r g b)
  | .indexed n => Except.ok ("38;5;".data ++ jsIntToDec n)

/-- The escape-sequence parameter a background setter stores, or the
error it throws. -/
def bgParam : BgOp → Except JSString JSString
  | .named c => CLW.colorToAnsii c true
  | .hexv h => (HexToRGB (Hex h)).map fun rgb => "48;2;".data ++ rgb
  | .rgbv r g b => Except.ok ("48;2;".data ++ RGB r g b)
  | .indexed n => Except.ok ("48;5;".data ++ jsIntToDec n)

/-- Every enum member of `Color` parses to a number, so `colorToAnsii`
returns a non-empty code string on the whole enum. -/
theorem colorToAnsii_ok (c : Color) (b : Bool) :
    ∃ v, CLW.colorToAnsii c b = Except.ok v ∧ v ≠ [] := by
  cases c <;> cases b <;> exact ⟨_, rfl, by decide⟩

/-- Every foreground setter either throws or stores the parameter
computed by `fgParam` into the `color` field. -/
theorem applyFg_eq (x : CLW) (f : FgOp) :
    applyFg x f = (fgParam f).map fun v => { x with color := v } := by
  cases f with
  | named c => rfl
  | hexv h =>
    cases hr : HexToRGB (Hex h) <;>
      simp [applyFg, CLW.text_hex, fgParam, hr, Except.map]
  | rgbv r g b => rfl
  | indexed n => rfl

/-- Every background setter either throws or stores the parameter
computed by `bgParam` into the `bgColor` field. -/
theorem applyBg_eq (x : CLW) (b : BgOp) :
    applyBg x b = (bgParam b).map fun v => { x with bgColor := v } := by
  cases b with
  | named c => rfl
  | hexv h =>
    cases hr : HexToRGB (Hex h) <;>
      simp [applyBg, CLW.bg_hex, bgParam, hr, Except.map]
  | rgbv r g b => rfl
  | indexed n => rfl

/-- A successful foreground parameter is never the empty string. -/
theorem fgParam_ne_nil (f : FgOp) (v : JSString) (h : fgParam f = Except.ok v) :
    v ≠ [] := by
  cases f with
  | named c =>
    obtain ⟨w, hw, hne⟩ := colorToAnsii_ok c false
    rw [fgParam, hw] at h
    cases h
    exact hne
  | hexv hx =>
    cases hr : HexToRGB (Hex hx) <;> simp [fgParam, hr, Except.map] at h
    simp [← h]
  | rgbv r g b => cases h; simp
  | indexed n => cases h; simp

/-- A successful background parameter is never the empty string. -/
theorem bgParam_ne_nil (b : BgOp) (v : JSString) (h : bgParam b = Except.ok v) :
    v ≠ [] := by
  cases b with
  | named c =>
    obtain ⟨w, hw, hne⟩ := colorToAnsii_ok c true
    rw [bgParam, hw] at h
    cases h
    exact hne
  | hexv hx =>
    cases hr : HexToRGB (Hex hx) <;> simp [bgParam, hr, Except.map] at h
    simp [← h]
  | rgbv r g b => cases h; simp
  | indexed n => cases h; simp

/-- The only error a foreground setter can throw is "Invalid hex color":
the named branch never throws on the closed enum. -/
theorem fgParam_error (f : FgOp) (m : JSString) (h : fgParam f = Except.error m) :
    m = "Invalid hex color".data := by
  cases f with
  | named c =>
    obtain ⟨w, hw, -⟩ := colorToAnsii_ok c false
    rw [fgParam, hw] at h
    cases h
  | hexv hx =>
    rw [fgParam] at h
    rw [HexToRGB] at h
    by_cases hreg : hexColorRegex (Hex hx) = true
    · rw [if_pos hreg] at h
      cases h
      rfl
    · rw [if_neg hreg] at h
      cases h
  | rgbv r g b => cases h
  | indexed n => cases h

/-- The only error a background setter can throw is "Invalid hex color". -/
theorem bgParam_error (b : BgOp) (m : JSString) (h : bgParam b = Except.error m) :
    m = "Invalid hex color".data := by
  cases b with
  | named c =>
    obtain ⟨w, hw, -⟩ := colorToAnsii_ok c true
    rw [bgParam, hw] at h
    cases h
  | hexv hx =>
    rw [bgParam] at h
    rw [HexToRGB] at h
    by_cases hreg : hexColorRegex (Hex hx) = true
    · rw [if_pos hreg] at h
      cases h
      rfl
    · rw [if_neg hreg] at h
      cases h
  | rgbv r g b => cases h
  | indexed n => cases h

/-- A single mutating call never changes the `str` field. -/
theorem applyOp_str (x : CLW) (op : Op) (y : CLW) (h : applyOp x op = Except.ok y) :
    y.str = x.str := by
  cases op with
  | fg f =>
    rw [applyOp, applyFg_eq] at h
    cases hp : fgParam f <;> rw [hp] at h <;> simp [Except.map] at h
    rw [← h]
  | bg b =>
    rw [applyOp, applyBg_eq] at h
    cases hp : bgParam b <;> rw [hp] at h <;> simp [Except.map] at h
    rw [← h]
  | font s => cases h; rfl
  | rst => cases h; rfl

/-- A chain of mutating calls never changes the `str` field. -/
theorem applyOps_str (ops : List Op) : ∀ x y : CLW,
    applyOps x ops = Except.ok y → y.str = x.str := by
  induction ops with
  | nil =>
    intro x y h
    cases h
    rfl
  | cons op rest ih =>
    intro x y h
    rw [applyOps] at h
    cases hop : applyOp x op with
    | error e => rw [hop] at h; cases h
    | ok z =>
      rw [hop] at h
      exact (ih z y h).trans (applyOp_str x op z hop)

/-- Rendering a builder with non-empty foreground, exactly one style and
non-empty background joins them in the fixed order fg, style, bg. -/
theorem toString_full (t vf vb sv : JSString) (hf : vf ≠ []) (hb : vb ≠ []) :
    CLW.toString ⟨t, vf, vb, [sv]⟩
      = "\x1b[".data ++ vf ++ (';' :: sv) ++ (';' :: vb) ++ ('m' :: t) ++ "\x1b[0m".data := by
  obtain ⟨a, as, rfl⟩ := List.exists_cons_of_ne_nil hf
  obtain ⟨c, cs, rfl⟩ := List.exists_cons_of_ne_nil hb
  simp [CLW.toString, List.intercalate, List.intersperse]

/-- C1: the spec requires `InvalidHexColor` to be raised exactly when the
hex input fails the hex-digit pattern, but the source test is inverted
(`if regex matches then throw`) and its `^#` pattern can no longer match
after `Hex` has stripped the leading `#`: on the malformed input "zz"
both hex setters return successfully, storing channel triple `0;0;0`
instead of throwing. -/
theorem C1_invalid_hex_not_raised :
    ("zz".data.all isHexDigitCI = false) ∧
    ((CLW.make "X".data).text_hex (.str "zz".data)
      = Except.ok ⟨"X".data, "38;2;0;0;0".data, [], []⟩) ∧
    ((CLW.make "X".data).bg_hex (.str "zz".data)
      = Except.ok ⟨"X".data, [], "48;2;0;0;0".data, []⟩) := by decide

/-- C2 as stated is false: the style segment of the render follows the
append order of the style calls, so permuting two distinct style calls
(here BOLD and ITALIC) in a chain that also sets foreground and
background changes the rendered output. -/
theorem C2_counterexample :
    List.Perm
      [Op.fg (FgOp.named Color.BLUE), Op.font Style.BOLD,
        Op.font Style.ITALIC, Op.bg (BgOp.named Color.BLUE)]
      [Op.fg (FgOp.named Color.BLUE), Op.font Style.ITALIC,
        Op.font Style.BOLD, Op.bg (BgOp.named Color.BLUE)] ∧
    (applyOps (CLW.make "X".data)
        [Op.fg (FgOp.named Color.BLUE), Op.font Style.BOLD,
          Op.font Style.ITALIC, Op.bg (BgOp.named Color.BLUE)]).map CLW.toString
      = Except.ok "\x1b[34;1;3;44mX\x1b[0m".data ∧
    (applyOps (CLW.make "X".data)
        [Op.fg (FgOp.named Color.BLUE), Op.font Style.ITALIC,
          Op.font Style.BOLD, Op.bg (BgOp.named Color.BLUE)]).map CLW.toString
      = Except.ok "\x1b[34;3;1;44mX\x1b[0m".data ∧
    ("\x1b[34;1;3;44mX\x1b[0m".data ≠ "\x1b[34;3;1;44mX\x1b[0m".data) := by decide

/-- C2 amended: when the chain contains ONE foreground setter, ONE style
call and ONE background setter, all six orderings of the three calls
produce the same result, and the rendered parameter list is ordered
foreground, style, background. -/
theorem C2_order_irrelevant (f : FgOp) (s : Style) (b : BgOp) (t : JSString) :
    (applyOps (CLW.make t) [Op.fg f, Op.bg b, Op.font s]
        = applyOps (CLW.make t) [Op.fg f, Op.font s, Op.bg b]) ∧
    (applyOps (CLW.make t) [Op.font s, Op.fg f, Op.bg b]
        = applyOps (CLW.make t) [Op.fg f, Op.font s, Op.bg b]) ∧
    (applyOps (CLW.make t) [Op.font s, Op.bg b, Op.fg f]
        = applyOps (CLW.make t) [Op.fg f, Op.font s, Op.bg b]) ∧
    (applyOps (CLW.make t) [Op.bg b, Op.fg f, Op.font s]
        = applyOps (CLW.make t) [Op.fg f, Op.font s, Op.bg b]) ∧
    (applyOps (CLW.make t) [Op.bg b, Op.font s, Op.fg f]
        = applyOps (CLW.make t) [Op.fg f, Op.font s, Op.bg b]) ∧
    (∀ x : CLW, applyOps (CLW.make t) [Op.fg f, Op.font s, Op.bg b] = Except.ok x →
      x.str = t ∧ x.style = [s.val] ∧
      CLW.toString x = "\x1b[".data ++ x.color ++ (';' :: s.val) ++ (';' :: x.bgColor)
        ++ ('m' :: t) ++ "\x1b[0m".data) := by
  cases hf : fgParam f with
  | error mf =>
    cases hb2 : bgParam b with
    | error mb =>
      have hm : mf = mb := (fgParam_error f mf hf).trans (bgParam_error b mb hb2).symm
      subst hm
      refine ⟨?_, ?_, ?_, ?_, ?_, ?_⟩ <;>
        simp [applyOps, applyOp, applyFg_eq, applyBg_eq, hf, hb2, Except.map, CLW.font, CLW.make]
    | ok vb =>
      refine ⟨?_, ?_, ?_, ?_, ?_, ?_⟩ <;>
        simp [applyOps, applyOp, applyFg_eq, applyBg_eq, hf, hb2, Except.map, CLW.font, CLW.make]
  | ok vf =>
    cases hb2 : bgParam b with
    | error mb =>
      refine ⟨?_, ?_, ?_, ?_, ?_, ?_⟩ <;>
        simp [applyOps, applyOp, applyFg_eq, applyBg_eq, hf, hb2, Except.map, CLW.font, CLW.make]
    | ok vb =>
      refine ⟨?_, ?_, ?_, ?_, ?_, ?_⟩ <;>
        simp [applyOps, applyOp, applyFg_eq, applyBg_eq, hf, hb2, Except.map, CLW.font, CLW.make]
      rw [toString_full t vf vb s.val (fgParam_ne_nil f vf hf) (bgParam_ne_nil b vb hb2)]
      simp

/-- C2 witness: foreground BLUE, style BLINK, background BLUE on
"Hello, world!" renders with parameters 34;5;44, the fixed
foreground-style-background order. -/
theorem C2_order_irrelevant_witness :
    (⟨"Hello, world!".data, "34".data, "44".data, ["5".data]⟩ : CLW).str
        = "Hello, world!".data ∧
    (⟨"Hello, world!".data, "34".data, "44".data, ["5".data]⟩ : CLW).style
        = [Style.BLINK.val] ∧
    CLW.toString (⟨"Hello, world!".data, "34".data, "44".data, ["5".data]⟩ : CLW)
      = "\x1b[".data ++ "34".data ++ (';' :: Style.BLINK.val) ++ (';' :: "44".data)
        ++ ('m' :: "Hello, world!".data) ++ "\x1b[0m".data :=
  (C2_order_irrelevant (FgOp.named Color.BLUE) Style.BLINK (BgOp.named Color.BLUE)
      "Hello, world!".data).2.2.2.2.2
    ⟨"Hello, world!".data, "34".data, "44".data, ["5".data]⟩ (by decide)

/-- C3: every named color renders as `ESC[<code>mXESC[0m` as foreground,
where the code is the enum's fixed value in 30-37 or 90-97, and the same
color as background uses the code plus 10. -/
theorem C3_named_color_codes (c : Color) :
    ∃ n : Nat,
      ((30 ≤ n ∧ n ≤ 37) ∨ (90 ≤ n ∧ n ≤ 97)) ∧
      CLW.colorToAnsii c false = Except.ok (jsNatToDec n) ∧
      CLW.colorToAnsii c true = Except.ok (jsNatToDec (n + 10)) ∧
      ((CLW.make "X".data).text c).map CLW.toString
        = Except.ok ("\x1b[".data ++ jsNatToDec n ++ ('m' :: "X".data) ++ "\x1b[0m".data) ∧
      ((CLW.make "X".data).bg c).map CLW.toString
        = Except.ok ("\x1b[".data ++ jsNatToDec (n + 10) ++ ('m' :: "X".data) ++ "\x1b[0m".data) := by
  cases c with
  | BLACK => exact ⟨30, by decide⟩
  | RED => exact ⟨31, by decide⟩
  | GREEN => exact ⟨32, by decide⟩
  | YELLOW => exact ⟨33, by decide⟩
  | BLUE => exact ⟨34, by decide⟩
  | MAGENTA => exact ⟨35, by decide⟩
  | CYAN => exact ⟨36, by decide⟩
  | WHITE => exact ⟨37, by decide⟩
  | BRIGHT_BLACK => exact ⟨90, by decide⟩
  | BRIGHT_RED => exact ⟨91, by decide⟩
  | BRIGHT_GREEN => exact ⟨92, by decide⟩
  | BRIGHT_YELLOW => exact ⟨93, by decide⟩
  | BRIGHT_BLUE => exact ⟨94, by decide⟩
  | BRIGHT_MAGENTA => exact ⟨95, by decide⟩
  | BRIGHT_CYAN => exact ⟨96, by decide⟩
  | BRIGHT_WHITE => exact ⟨97, by decide⟩

/-- C4: the numeric hex input 0xFF0000 decodes to channels 255;0;0 and
the string hex input "00ff00" to 0;255;0, so red is bits 16-23, green
bits 8-15 and blue bits 0-7. -/
theorem C4_hex_decode :
    ((CLW.make "X".data).text_hex (.num 0xFF0000)).map CLW.toString
      = Except.ok "\x1b[38;2;255;0;0mX\x1b[0m".data ∧
    ((CLW.make "X".data).text_hex (.str "00ff00".data)).map CLW.toString
      = Except.ok "\x1b[38;2;0;255;0mX\x1b[0m".data := by decide

/-- C5: a freshly constructed builder renders as exactly its text, with
no escape bytes. -/
theorem C5_render_fresh (t : JSString) : (CLW.make t).toString = t := rfl

/-- C6: after any chain of mutating calls, `reset` restores the
no-fields-set render behavior (the render is the raw text) while the
text field is unchanged. -/
theorem C6_reset_restores (t : JSString) (ops : List Op) (c : CLW)
    (h : applyOps (CLW.make t) ops = Except.ok c) :
    (c.reset).toString = t ∧ (c.reset).str = t := by
  have hstr : c.str = t := applyOps_str ops (CLW.make t) c h
  constructor
  · calc (c.reset).toString = c.str := rfl
    _ = t := hstr
  · exact hstr

/-- C6 witness: set foreground BLUE then style BOLD on "hi", reset, and
the render is "hi" again with the text intact. -/
theorem C6_reset_restores_witness :
    ((⟨"hi".data, "34".data, [], ["1".data]⟩ : CLW).reset).toString = "hi".data ∧
    ((⟨"hi".data, "34".data, [], ["1".data]⟩ : CLW).reset).str = "hi".data :=
  C6_reset_restores "hi".data [Op.fg (FgOp.named Color.BLUE), Op.font Style.BOLD]
    ⟨"hi".data, "34".data, [], ["1".data]⟩ (by decide)

/-- C7: no mutating call of the public interface changes the `str` field
set at construction; render (`toString`) is a pure function of the state
in this embedding, so it cannot change any field. -/
theorem C7_text_immutable (x : CLW) (op : Op) (y : CLW)
    (h : applyOp x op = Except.ok y) : y.str = x.str :=
  applyOp_str x op y h

/-- C7 witness: appending a style to a builder on "t" leaves its text
field untouched. -/
theorem C7_text_immutable_witness :
    (⟨"t".data, [], [], ["1".data]⟩ : CLW).str = (CLW.make "t".data).str :=
  C7_text_immutable (CLW.make "t".data) (Op.font Style.BOLD)
    ⟨"t".data, [], [], ["1".data]⟩ (by decide)

/-- C8: on the closed `Color` enumeration, `colorToAnsii` always parses
the enum value to a number, so the "Invalid color code" branch is
unreachable for both foreground and background conversions. -/
theorem C8_invalid_color_unreachable (c : Color) (b : Bool) :
    (CLW.colorToAnsii c b).isOk = true := by
  obtain ⟨v, hv, -⟩ := colorToAnsii_ok c b
  rw [hv]
  rfl

/-- C9 counterexample: the claim says no input whatsoever can raise, but
a string with two leading `#` and six hex digits survives the single-`#`
strip still matching the regex, so both hex setters throw on it; and a
parse failure yields channels 0;0;0 (NaN is coerced to 0 by the bitwise
operators), not NaN channel values. -/
theorem C9_counterexample :
    ((CLW.make "X".data).text_hex (.str "##ffffff".data)
      = Except.error "Invalid hex color".data) ∧
    ((CLW.make "X".data).bg_hex (.str "##ffffff".data)
      = Except.error "Invalid hex color".data) ∧
    HexToRGB (Hex (.str "zzzzzz".data)) = Except.ok "0;0;0".data := by decide

/-- C9 amended: the hex setters raise exactly when the normalized input
still matches the `#`-hex regex (possible only for inputs like
"##ffffff"); every other input, however malformed, completes without
error, and when no hex digits parse at all the NaN is coerced to 0 so
the stored channel triple is 0;0;0. -/
theorem C9_hex_setters_error_iff (t : JSString) (input : NumOrStr) :
    (((CLW.make t).text_hex input).isOk = true ↔ hexColorRegex (Hex input) = false) ∧
    (((CLW.make t).bg_hex input).isOk = true ↔ hexColorRegex (Hex input) = false) ∧
    (hexColorRegex (Hex input) = false → parseIntJS 16 (Hex input) = none →
      (CLW.make t).text_hex input = Except.ok ⟨t, "38;2;0;0;0".data, [], []⟩ ∧
      (CLW.make t).bg_hex input = Except.ok ⟨t, [], "48;2;0;0;0".data, []⟩) := by
  refine ⟨?_, ?_, ?_⟩
  · cases hreg : hexColorRegex (Hex input) <;>
      simp [CLW.text_hex, HexToRGB, hreg, Except.map, Except.isOk, Except.toBool]
  · cases hreg : hexColorRegex (Hex input) <;>
      simp [CLW.bg_hex, HexToRGB, hreg, Except.map, Except.isOk, Except.toBool]
  · intro hreg hnan
    have hrgb : HexToRGB (Hex input) = Except.ok "0;0;0".data := by
      rw [HexToRGB, if_neg (by rw [hreg]; intro hc; cases hc), hnan]
      rfl
    constructor
    · rw [CLW.text_hex, hrgb]
      rfl
    · rw [CLW.bg_hex, hrgb]
      rfl

/-- C9 witness: "zzzzzz" parses no hex digit at all, and both setters
succeed with channel triple 0;0;0. -/
theorem C9_hex_setters_error_iff_witness :
    (CLW.make "X".data).text_hex (.str "zzzzzz".data)
      = Except.ok ⟨"X".data, "38;2;0;0;0".data, [], []⟩ ∧
    (CLW.make "X".data).bg_hex (.str "zzzzzz".data)
      = Except.ok ⟨"X".data, [], "48;2;0;0;0".data, []⟩ :=
  (C9_hex_setters_error_iff "X".data (.str "zzzzzz".data)).2.2 (by decide) (by decide)

/-- C10: a 3-hex-digit string, with or without a leading `#`, is
left-padded with zeros to six digits rather than having each digit
doubled, so "fff" becomes "000fff" and the stored foreground channels
for "fff" are 0;15;255, not 255;255;255. -/
theorem C10_three_digit_pad (ds : JSString) (h3 : ds.length = 3)
    (hhex : ds.all isHexDigitCI = true) :
    Hex (.str ds) = '0' :: '0' :: '0' :: ds ∧
    Hex (.str ('#' :: ds)) = '0' :: '0' :: '0' :: ds ∧
    (CLW.make "X".data).text_hex (.str "fff".data)
      = Except.ok ⟨"X".data, "38;2;0;15;255".data, [], []⟩ := by
  rcases ds with - | ⟨a, - | ⟨b, - | ⟨c, - | ⟨d, t⟩⟩⟩⟩ <;> simp at h3
  simp [List.all_cons] at hhex
  have ha : ¬ a = '#' := by
    intro e
    subst e
    exact absurd hhex.1 (by decide)
  refine ⟨?_, ?_, by decide⟩
  · simp [Hex, stripHash, padStart6, if_neg ha, List.replicate]
  · simp [Hex, stripHash, padStart6, List.replicate]

/-- C10 witness: "fff" itself is three hex digits, pads to "000fff" both
bare and with a leading `#`, and stores channels 0;15;255. -/
theorem C10_three_digit_pad_witness :
    Hex (.str "fff".data) = '0' :: '0' :: '0' :: "fff".data ∧
    Hex (.str ('#' :: "fff".data)) = '0' :: '0' :: '0' :: "fff".data ∧
    (CLW.make "X".data).text_hex (.str "fff".data)
      = Except.ok ⟨"X".data, "38;2;0;15;255".data, [], []⟩ :=
  C10_three_digit_pad "fff".data (by decide) (by decide)

end Clwind
